import Mathlib

/-!
Verification development for the course matching and retrieval engine of the
Chatbot-hybrid repository (backend/app: formation_search.py,
services/matching_engine.py, services/data_loader.py, llm_driven_counselor.py,
llm_engine.py, langchain_rag_service.py).

Python strings are modelled by Lean `String`; Python `needle in hay` is
substring containment (`pyIn`), `s.lower()` is `pyLower` (ASCII case folding,
the only case the corpus exercises), and truthiness of the various Python
values is modelled by explicit `pyTruthy…`/`pyFalsy…` functions.  Floating
point similarity scores are modelled by `ℚ` (only order comparisons matter to
the claims).  Code that can raise is modelled in the `Except String` monad.
-/

namespace Chatbot

/-- Python `s.lower()` (ASCII case folding, as exercised by the corpus). -/
def pyLower (s : String) : String := ⟨s.data.map Char.toLower⟩

/-- Helper for substring containment: does `needle` occur in `hay` at any
position (as a contiguous run)? -/
def infixAt : List Char → List Char → Bool
  | needle, [] => needle.isEmpty
  | needle, h :: t => needle.isPrefixOf (h :: t) || infixAt needle t

/-- Python `needle in hay` for strings: substring containment. -/
def pyIn (needle hay : String) : Bool := infixAt needle.data hay.data

/-- Python `not s.strip()`: the string is empty or whitespace only. -/
def pyIsBlank (s : String) : Bool := s.data.all (·.isWhitespace)

/-!
## services/matching_engine.py (identical copy in main.py)

A DataFrame row as built by `load_formations_to_df`: the fields read by
`partial_match_formations` are `objectifs`, `prerequis`, `programme` (JSON
value: a list of strings, or a bare string, wrapped by the
`lst if isinstance(lst, list) else [lst]` branch) and `niveau`
(`row.get("niveau", "")`, a string, `""` when the column is absent).
-/

/-- A JSON field value as consumed by the corpus-building lambda: either a
bare string or a list of strings. -/
inductive PyField where
  | str (s : String)
  | list (xs : List String)
deriving DecidableEq

/-- Python `lst if isinstance(lst, list) else [lst]`. -/
def PyField.items : PyField → List String
  | .str s => [s]
  | .list xs => xs

/-- Python truthiness test `not …` on a field value: `""` and `[]` are falsy. -/
def PyField.isFalsy : PyField → Bool
  | .str s => s == ""
  | .list xs => xs.isEmpty

/-- One course row of the formations DataFrame. -/
structure Row where
  titre : String := ""
  objectifs : PyField := .list []
  prerequis : PyField := .list []
  programme : PyField := .list []
  niveau : String := ""
deriving DecidableEq

/-- The per-row corpus string:
`" ".join(str(x).lower() for lst in [objectifs, prerequis, programme]
for x in (lst if isinstance(lst, list) else [lst]))`. -/
def rowCorpus (row : Row) : String :=
  String.intercalate " "
    ((row.objectifs.items ++ row.prerequis.items ++ row.programme.items).map pyLower)

/-- Code `sum(1 for t in tokens if t in text)`: the token-overlap part of the
score of `compute_score`. -/
def tokenScore (tokens : List String) (row : Row) : Nat :=
  (tokens.filter (fun t => pyIn t (rowCorpus row))).length

/-- Function `compute_score` of `partial_match_formations`: token overlap plus the
level bonus (`+2` débutant branch, `+1` avancé branch, nothing otherwise). -/
def computeScore (tokens : List String) (niveau_user : String) (row : Row) : Nat :=
  let text := rowCorpus row
  let score := (tokens.filter (fun t => pyIn t text)).length
  let niveau_formation := pyLower row.niveau
  if niveau_user == "débutant" &&
      (pyIn "débutant" niveau_formation || row.prerequis.isFalsy) then
    score + 2
  else if niveau_user == "avancé" && pyIn "avancé" niveau_formation then
    score + 1
  else
    score

/-- The level bonus as the specification words it: exactly `+2` when the user
level is débutant and the course level contains "débutant" or the course has
no prerequisites; exactly `+1` when the user level is avancé and the course
level contains "avancé"; `0` in every other case. -/
def levelBonusSpec (niveau_user : String) (row : Row) : Nat :=
  if niveau_user = "débutant" ∧
      (pyIn "débutant" (pyLower row.niveau) = true ∨ row.prerequis.isFalsy = true) then 2
  else if niveau_user = "avancé" ∧ pyIn "avancé" (pyLower row.niveau) = true then 1
  else 0

/-- A row of the scored DataFrame: original position (`idx`), the row, and
its computed score. -/
structure ScoredRow where
  idx : Nat
  row : Row
  score : Nat
deriving DecidableEq

/-- The DataFrame after `df["score"] = df.apply(compute_score, axis=1)`,
with original iteration order recorded in `idx`. -/
def scoreRows (tokens : List String) (niveau_user : String) (df : List Row) :
    List ScoredRow :=
  df.enum.map (fun p => ⟨p.1, p.2, computeScore tokens niveau_user p.2⟩)

/-- Descending-score comparison: all that
`sort_values(by="score", ascending=False)` guarantees about the order of its
output. -/
def scoreDescLe (a b : ScoredRow) : Prop := b.score ≤ a.score

instance : DecidableRel scoreDescLe := fun a b => by unfold scoreDescLe; infer_instance

instance : IsTotal ScoredRow scoreDescLe := ⟨fun a b => Nat.le_total b.score a.score⟩

instance : IsTrans ScoredRow scoreDescLe :=
  ⟨fun _ _ _ hab hbc => Nat.le_trans hbc hab⟩

/-- Function `partial_match_formations(df, tokens, niveau_user, seuil_score)`:
empty result on an empty DataFrame or empty token list, otherwise score every
row, keep the rows with `score >= seuil_score` and sort them with
`sort_values(by="score", ascending=False)`.  pandas is called with its
default `kind='quicksort'`, which guarantees that the output is a
permutation of the input that is descending in score and nothing more — in
particular it is NOT stable, so the order of equal scores is unspecified.
The sort is therefore modelled by a parameter `sortImpl` ranging over every
conforming outcome; the theorems assume of it exactly the permutation and
descending-order properties. -/
def partMatchFormations (sortImpl : List ScoredRow → List ScoredRow)
    (df : List Row) (tokens : List String)
    (niveau_user : String) (seuil_score : Nat) : List ScoredRow :=
  if df.isEmpty || tokens.isEmpty then []
  else
    sortImpl
      ((scoreRows tokens niveau_user df).filter (fun r => seuil_score ≤ r.score))

/-- A tie-reversing descending comparison: equal scores ordered by
descending original position — one of the orders an unstable quicksort may
realize for equal keys. -/
def tieRevLe (a b : ScoredRow) : Prop :=
  b.score < a.score ∨ (a.score = b.score ∧ b.idx ≤ a.idx)

instance : DecidableRel tieRevLe := fun a b => by unfold tieRevLe; infer_instance

instance : IsTotal ScoredRow tieRevLe := ⟨by
  intro a b
  rcases lt_trichotomy a.score b.score with h | h | h
  · exact Or.inr (Or.inl h)
  · rcases Nat.le_total b.idx a.idx with h' | h'
    · exact Or.inl (Or.inr ⟨h, h'⟩)
    · exact Or.inr (Or.inr ⟨h.symm, h'⟩)
  · exact Or.inl (Or.inl h)⟩

instance : IsTrans ScoredRow tieRevLe := ⟨by
  intro a b c hab hbc
  rcases hab with h | ⟨h1, h2⟩ <;> rcases hbc with h' | ⟨h1', h2'⟩
  · exact Or.inl (h'.trans h)
  · exact Or.inl (h1' ▸ h)
  · exact Or.inl (h1 ▸ h')
  · exact Or.inr ⟨h1.trans h1', h2'.trans h2⟩⟩

/-- One conforming outcome of `sort_values(..., kind='quicksort')` that
orders equal scores by descending original position.  quicksort promises no
stability, so this outcome is allowed by the code's contract. -/
def tieSwapSort (l : List ScoredRow) : List ScoredRow :=
  List.insertionSort tieRevLe l

/-- Conformance of `tieSwapSort`: it permutes its input. -/
theorem tieSwapSort_perm (l : List ScoredRow) : List.Perm (tieSwapSort l) l :=
  List.perm_insertionSort tieRevLe l

/-- Conformance of `tieSwapSort`: its output is descending in score. -/
theorem tieSwapSort_sorted (l : List ScoredRow) :
    (tieSwapSort l).Pairwise (fun a b => b.score ≤ a.score) := by
  have h : (tieSwapSort l).Pairwise tieRevLe :=
    List.sorted_insertionSort tieRevLe l
  refine h.imp (fun hab => ?_)
  rcases hab with h' | ⟨h', _⟩
  · exact le_of_lt h'
  · exact le_of_eq h'.symm

def rowTieA : Row := { titre := "a", objectifs := PyField.list ["excel"] }

def rowTieB : Row := { titre := "b", objectifs := PyField.list ["excel"] }

/-- Claim C2 counterexample: under a conforming `sort_values` outcome
(descending permutation — pandas' default `kind='quicksort'` guarantees
nothing about ties), two equal-score rows come back in reversed corpus
order, so the stable-ties conjunct of the claim is not a property of the
program. -/
theorem partMatch_stable_counterexample :
    partMatchFormations tieSwapSort [rowTieA, rowTieB] ["excel"] "x" 1
      = [⟨1, rowTieB, 1⟩, ⟨0, rowTieA, 1⟩]
    ∧ ¬ (partMatchFormations tieSwapSort [rowTieA, rowTieB] ["excel"] "x" 1).Pairwise
        (fun a b => a.score = b.score → a.idx ≤ b.idx) :=
  ⟨by decide, by decide⟩

/-- Claim C2 (amended): for every conforming `sort_values` outcome (any
function returning a descending-in-score permutation, which is all pandas'
default non-stable quicksort guarantees), every course DataFrame, token
list, user level and threshold `m`: every row returned by
`partial_match_formations` has `score >= m`, no row with `score < m` is
returned, and the rows are sorted by descending score.  The order among
equal scores is whatever the sort outcome realizes — the code does not
guarantee stability. -/
theorem partMatch_threshold_sorted (sortImpl : List ScoredRow → List ScoredRow)
    (hperm : ∀ l, List.Perm (sortImpl l) l)
    (hsorted : ∀ l, (sortImpl l).Pairwise (fun a b => b.score ≤ a.score))
    (df : List Row) (tokens : List String) (u : String) (m : Nat) :
    (∀ r ∈ partMatchFormations sortImpl df tokens u m,
        m ≤ r.score ∧ r ∈ scoreRows tokens u df)
    ∧ (∀ r ∈ scoreRows tokens u df, r.score < m →
        r ∉ partMatchFormations sortImpl df tokens u m)
    ∧ (partMatchFormations sortImpl df tokens u m).Pairwise
        (fun a b => b.score ≤ a.score) := by
  have hmem : ∀ r, r ∈ partMatchFormations sortImpl df tokens u m →
      r ∈ scoreRows tokens u df ∧ m ≤ r.score := by
    intro r hr
    unfold partMatchFormations at hr
    split at hr
    · simp at hr
    · have h := (hperm _).mem_iff.mp hr
      simpa using h
  have hdesc : (partMatchFormations sortImpl df tokens u m).Pairwise
      (fun a b => b.score ≤ a.score) := by
    unfold partMatchFormations
    split
    · exact List.Pairwise.nil
    · exact hsorted _
  refine ⟨fun r hr => ⟨(hmem r hr).2, (hmem r hr).1⟩, ?_, hdesc⟩
  intro r _ hlt hr
  exact absurd (hmem r hr).2 (by omega)

/-- Witness for the amended C2: the descending insertion sort is one
conforming outcome; at a one-row DataFrame the returned row meets the
threshold. -/
theorem partMatch_threshold_sorted_witness :
    (⟨0, { titre := "a", objectifs := PyField.list ["excel"] }, 1⟩ : ScoredRow) ∈
        partMatchFormations (List.insertionSort scoreDescLe)
          [{ titre := "a", objectifs := PyField.list ["excel"] }] ["excel"] "x" 1
    ∧ 1 ≤ (⟨0, { titre := "a", objectifs := PyField.list ["excel"] }, 1⟩ : ScoredRow).score :=
  ⟨by decide,
    ((partMatch_threshold_sorted (List.insertionSort scoreDescLe)
        (fun l => List.perm_insertionSort scoreDescLe l)
        (fun l => List.sorted_insertionSort scoreDescLe l)
        [{ titre := "a", objectifs := PyField.list ["excel"] }] ["excel"] "x" 1).1
      ⟨0, { titre := "a", objectifs := PyField.list ["excel"] }, 1⟩ (by decide)).1⟩

/-- Claim C5: `compute_score` is the token-overlap count plus the level bonus
exactly as specified (`+2` for débutant with a débutant-level course or no
prerequisites, `+1` for avancé with an avancé-level course, `0` otherwise);
consequently a no-prerequisite course containing at least 2 of the profile
tokens scores at least 4 for a débutant profile. -/
theorem computeScore_eq_tokenScore_add_bonus (tokens : List String) (u : String)
    (r : Row) :
    computeScore tokens u r = tokenScore tokens r + levelBonusSpec u r
    ∧ (u = "débutant" → r.prerequis.isFalsy = true → 2 ≤ tokenScore tokens r →
        4 ≤ computeScore tokens u r) := by
  have hmain : computeScore tokens u r = tokenScore tokens r + levelBonusSpec u r := by
    simp only [computeScore, tokenScore, levelBonusSpec, Bool.and_eq_true,
      Bool.or_eq_true, beq_iff_eq]
    split_ifs <;> omega
  refine ⟨hmain, fun hu hpre hts => ?_⟩
  have hbonus : levelBonusSpec u r = 2 := by
    unfold levelBonusSpec
    rw [if_pos ⟨hu, Or.inr hpre⟩]
  omega

/-- Witness for C5 at a concrete row matching Scenario B of the spec. -/
theorem computeScore_eq_tokenScore_add_bonus_witness :
    ("débutant" : String) = "débutant"
    ∧ (PyField.list ([] : List String)).isFalsy = true
    ∧ 2 ≤ tokenScore ["excel", "sql"]
        { titre := "b", objectifs := PyField.list ["maitriser excel et sql"] }
    ∧ 4 ≤ computeScore ["excel", "sql"] "débutant"
        { titre := "b", objectifs := PyField.list ["maitriser excel et sql"] } :=
  ⟨rfl, by decide, by decide,
    (computeScore_eq_tokenScore_add_bonus ["excel", "sql"] "débutant"
      { titre := "b", objectifs := PyField.list ["maitriser excel et sql"] }).2
      rfl (by decide) (by decide)⟩

/-!
## llm_driven_counselor.py `_apply_filters` and llm_engine.py certification test

A formation as read by `_apply_filters`: every field is fetched with
`formation.get(...)`, so each is optional.  `nomenclature` stands for the
`NOMENCLATURE_EUROPE_INTITULE` registry field.
-/

structure Formation where
  source : Option String := none
  certifiant : Option Bool := none
  modalite : Option String := none
  lieu : Option String := none
  nomenclature : Option String := none
  duree : Option String := none
deriving DecidableEq

/-- The sparse criteria dictionary of `_handle_filter_search`; the requested
modalities are passed separately, as in the code. -/
structure Criteria where
  certifiant : Option Bool := none
  niveau : Option String := none
  duree_max : Option Nat := none
deriving DecidableEq

def isRncp (f : Formation) : Bool := f.source == some "rncp"

def isInternal (f : Formation) : Bool := f.source == some "internal"

/-- Python truthiness of `criteria.get("niveau")`: present and non-empty. -/
def pyTruthyStrOpt : Option String → Bool
  | none => false
  | some s => !(s == "")

/-- Python truthiness of `criteria.get("duree_max")`: present and non-zero. -/
def pyTruthyNatOpt : Option Nat → Bool
  | none => false
  | some n => !(n == 0)

/-- Digit run at the head of the list read as a number (regex group `(\d+)`). -/
def digitsToNat (l : List Char) : Nat :=
  l.foldl (fun acc c => acc * 10 + (c.toNat - '0'.toNat)) 0

/-- Try the pattern `\d+\s*jours?` anchored at the current position (which
must start with a digit). -/
def joursHere (l : List Char) : Option Nat :=
  let run := l.takeWhile Char.isDigit
  let rest := (l.dropWhile Char.isDigit).dropWhile Char.isWhitespace
  if "jour".data.isPrefixOf rest then some (digitsToNat run) else none

/-- Python `re.search(r'(\d+)\s*jours?', s)`: scan left to right for the first
position where the pattern matches; return the matched number of days. -/
def matchJours : List Char → Option Nat
  | [] => none
  | c :: rest =>
      if c.isDigit then
        match joursHere (c :: rest) with
        | some n => some n
        | none => matchJours rest
      else matchJours rest

/-- Certification test of `_apply_filters`: RNCP formations count as
certifying unconditionally, otherwise `formation.get("certifiant", False)`. -/
def certOk (c : Criteria) (f : Formation) : Bool :=
  match c.certifiant with
  | none => true
  | some want => (if isRncp f then true else f.certifiant.getD false) == want

/-- Modality test of `_apply_filters`: only evaluated when some modality is
requested; RNCP formations are excluded outright; otherwise any requested
modality must match against the `modalite`/`lieu` fields per its branch. -/
def modOk (ms : List String) (f : Formation) : Bool :=
  if ms.isEmpty then true
  else if isRncp f then false
  else
    let modalite := pyLower (f.modalite.getD "")
    let lieu := pyLower (f.lieu.getD "")
    ms.any (fun mod =>
      (mod == "distance" && (pyIn "distance" modalite || pyIn "distance" lieu)) ||
      (mod == "site" &&
        (pyIn "site" modalite || pyIn "site" lieu || pyIn "présentiel" modalite)) ||
      (mod == "hybride" && pyIn "hybride" modalite))

/-- Level test of `_apply_filters`: substring containment on the
`NOMENCLATURE_EUROPE_INTITULE` field (case folded), when requested. -/
def nivOk (c : Criteria) (f : Formation) : Bool :=
  if pyTruthyStrOpt c.niveau then
    pyIn (pyLower (c.niveau.getD "")) (pyLower (f.nomenclature.getD ""))
  else true

/-- Duration test of `_apply_filters`: only for internal formations whose
`duree` field matches `(\d+)\s*jours?`; unparseable durations pass through. -/
def durOk (c : Criteria) (f : Formation) : Bool :=
  if pyTruthyNatOpt c.duree_max && isInternal f then
    match matchJours (f.duree.getD "").data with
    | some j => decide (j ≤ c.duree_max.getD 0)
    | none => true
  else true

/-- The per-formation conjunction of the four `continue` tests of
`_apply_filters`. -/
def keepFormation (c : Criteria) (ms : List String) (f : Formation) : Bool :=
  certOk c f && modOk ms f && nivOk c f && durOk c f

/-- Method `_apply_filters(criteria, modalites)` over a formation list: keep, in
order, the formations passing all tests. -/
def applyFilters (c : Criteria) (ms : List String) (fs : List Formation) :
    List Formation :=
  fs.filter (keepFormation c ms)

/-- Method `handle_filtered_search` (llm_engine.py): a course is certifying when its
`certifiant` field is truthy or its source is the RNCP registry. -/
def llmIsCertifying (certifiant : Option Bool) (source : Option String) : Bool :=
  certifiant.getD false || (source == some "rncp")

/-- The certification branch of `handle_filtered_search`: `false` means the
course is rejected by the `certifiante` filter value. -/
def llmCertFilterOk (filterVal : String) (certifiant : Option Bool)
    (source : Option String) : Bool :=
  if (filterVal == "oui" || filterVal == "true" || filterVal == "1" ||
      filterVal == "vrai" || filterVal == "yes") &&
      !(llmIsCertifying certifiant source) then false
  else if (filterVal == "non" || filterVal == "false" || filterVal == "0" ||
      filterVal == "faux" || filterVal == "no") &&
      llmIsCertifying certifiant source then false
  else true

/-- Claim C3: with `certifying=true` requested, every RNCP-source course
passes the certification filter regardless of its raw `certifiant` field
— under every criteria set carrying the flag, and with no other criteria it
is included iff it is in the corpus; with `certifying=false` requested, no
RNCP-source course is ever included.  The same holds for the certification
branch of `handle_filtered_search`. -/
theorem certification_override (fs : List Formation) (f : Formation)
    (ms : List String) (c : Criteria) :
    (isRncp f = true →
      (f ∈ applyFilters { certifiant := some true } [] fs ↔ f ∈ fs))
    ∧ (c.certifiant = some true → isRncp f = true → certOk c f = true)
    ∧ (c.certifiant = some false → isRncp f = true → f ∉ applyFilters c ms fs)
    ∧ (f.source = some "rncp" →
        llmCertFilterOk "oui" f.certifiant f.source = true
        ∧ llmCertFilterOk "non" f.certifiant f.source = false) := by
  refine ⟨?_, ?_, ?_, ?_⟩
  · intro hrncp
    simp [applyFilters, List.mem_filter, keepFormation, certOk, modOk, nivOk,
      durOk, pyTruthyStrOpt, pyTruthyNatOpt, hrncp]
  · intro hc hrncp
    simp [certOk, hc, hrncp]
  · intro hc hrncp hmem
    rw [applyFilters, List.mem_filter] at hmem
    have hk := hmem.2
    rw [keepFormation] at hk
    simp [certOk, hc, hrncp] at hk
  · intro hsrc
    rw [hsrc]
    rcases hcert : f.certifiant with _ | b
    · exact ⟨by decide, by decide⟩
    · cases b <;> exact ⟨by decide, by decide⟩

def rncpNonCert : Formation := { source := some "rncp", certifiant := some false }

/-- Witness for C3: a registry course with raw `certifiant = false` is
included under `certifying=true` (and passes the certification test even in
a criteria set also carrying level and duration filters) and is excluded
under `certifying=false`. -/
theorem certification_override_witness :
    isRncp rncpNonCert = true
    ∧ ({ certifiant := some false } : Criteria).certifiant = some false
    ∧ rncpNonCert ∈ applyFilters { certifiant := some true } [] [rncpNonCert]
    ∧ certOk { certifiant := some true, niveau := some "niveau 5",
               duree_max := some 3 } rncpNonCert = true
    ∧ rncpNonCert ∉ applyFilters { certifiant := some false } ["site"] [rncpNonCert] :=
  ⟨by decide, rfl,
    ((certification_override [rncpNonCert] rncpNonCert ["site"]
        { certifiant := some false }).1 (by decide)).mpr (by decide),
    (certification_override [rncpNonCert] rncpNonCert ["site"]
        { certifiant := some true, niveau := some "niveau 5",
          duree_max := some 3 }).2.1 rfl (by decide),
    (certification_override [rncpNonCert] rncpNonCert ["site"]
        { certifiant := some false }).2.2.1 rfl (by decide)⟩

def hybridLieuCourse : Formation :=
  { source := some "internal", modalite := some "", lieu := some "hybride" }

/-- Claim C4 counterexample: with requested modalities `{"hybride"}`, an
internal course whose location field contains "hybride" (while its modality
field does not) is excluded by `_apply_filters`, although the claim as
stated requires it to be retained (its location field contains a requested
modality): the "hybride" branch of the code only inspects the modality
field. -/
theorem modality_rule_counterexample :
    applyFilters {} ["hybride"] [hybridLieuCourse] = []
    ∧ pyIn "hybride" (pyLower (hybridLieuCourse.lieu.getD "")) = true
    ∧ isInternal hybridLieuCourse = true :=
  ⟨by decide, by decide, by decide⟩

/-- Claim C4 (amended): with a non-empty requested modality set, every
RNCP-source course is excluded outright, under any criteria; an internal
course is retained by the modality-only filter iff some requested modality
matches per its branch: "distance" against the modality or location field,
"site" against the modality or location field or "présentiel" in the
modality field, and "hybride" against the modality field only. -/
theorem modality_rule (fs : List Formation) (f : Formation) (c : Criteria)
    (ms : List String) (hms : ms ≠ []) :
    (isRncp f = true → f ∉ applyFilters c ms fs)
    ∧ (isInternal f = true →
        (f ∈ applyFilters {} ms fs ↔ f ∈ fs ∧
          ∃ mod ∈ ms,
            (mod = "distance" ∧ (pyIn "distance" (pyLower (f.modalite.getD "")) = true
              ∨ pyIn "distance" (pyLower (f.lieu.getD "")) = true))
            ∨ (mod = "site" ∧ (pyIn "site" (pyLower (f.modalite.getD "")) = true
              ∨ pyIn "site" (pyLower (f.lieu.getD "")) = true
              ∨ pyIn "présentiel" (pyLower (f.modalite.getD "")) = true))
            ∨ (mod = "hybride" ∧
                pyIn "hybride" (pyLower (f.modalite.getD "")) = true))) := by
  have hie : ms.isEmpty = false := by
    cases ms with
    | nil => exact absurd rfl hms
    | cons a t => rfl
  constructor
  · intro hrncp hmem
    rw [applyFilters, List.mem_filter] at hmem
    have hk := hmem.2
    rw [keepFormation] at hk
    simp [modOk, hie, hrncp] at hk
  · intro hint
    have hsrc : f.source = some "internal" := by
      rwa [isInternal, beq_iff_eq] at hint
    have hrncp : isRncp f = false := by
      rw [isRncp, hsrc]; decide
    rw [applyFilters, List.mem_filter, keepFormation]
    simp only [certOk, nivOk, durOk, pyTruthyStrOpt, pyTruthyNatOpt, modOk, hie,
      hrncp, Bool.false_eq_true, false_and, if_false, Bool.true_and,
      Bool.and_true, List.any_eq_true, Bool.or_eq_true, Bool.and_eq_true,
      beq_iff_eq]
    aesop

def remoteCourse : Formation :=
  { source := some "internal", modalite := some "a distance" }

def rncpSample : Formation := { source := some "rncp" }

/-- Witness for the amended C4 at concrete courses. -/
theorem modality_rule_witness :
    (["distance"] : List String) ≠ []
    ∧ isRncp rncpSample = true
    ∧ rncpSample ∉ applyFilters {} ["distance"] [rncpSample]
    ∧ isInternal remoteCourse = true
    ∧ remoteCourse ∈ applyFilters {} ["distance"] [remoteCourse] :=
  ⟨by decide, by decide,
    (modality_rule [rncpSample] rncpSample {} ["distance"] (by decide)).1 (by decide),
    by decide,
    ((modality_rule [remoteCourse] remoteCourse {} ["distance"] (by decide)).2
      (by decide)).mpr
      ⟨by decide, "distance", by decide, Or.inl ⟨rfl, Or.inl (by decide)⟩⟩⟩

/-!
## formation_search.py and services/data_loader.py

Raw JSON course records are Python dicts, modelled as association lists of
`PyVal` values (the JSON value shapes this corpus uses: strings, numbers,
booleans, null, and arrays of strings).  Code that can raise is modelled in
the `Except String` monad.
-/

inductive PyVal where
  | str (s : String)
  | int (n : Int)
  | bool (b : Bool)
  | null
  | vals (xs : List String)
deriving DecidableEq

/-- A raw JSON course record (a Python dict). -/
abbrev Fiche := List (String × PyVal)

/-- The value stored under a key, `none` when the key is absent. -/
def pyGetOpt (f : Fiche) (k : String) : Option PyVal :=
  match f.find? (fun kv => kv.1 == k) with
  | some kv => some kv.2
  | none => none

/-- Python `fiche.get(key)`: `None` when the key is absent. -/
def pyGet (f : Fiche) (k : String) : PyVal := (pyGetOpt f k).getD .null

/-- Python `fiche.get(key, default)`. -/
def pyGetD (f : Fiche) (k : String) (d : PyVal) : PyVal := (pyGetOpt f k).getD d

/-- Python `fiche.get(key, default)` for the text fields of the searchable
text (string-valued in this corpus). -/
def pyGetStrD (f : Fiche) (k d : String) : String :=
  match pyGetOpt f k with
  | some (.str s) => s
  | some _ => d
  | none => d

/-- Method `extract_searchable_text(fiche)`: title and the three registry
description fields joined with spaces. -/
def extractSearchableText (f : Fiche) : String :=
  String.intercalate " "
    [pyGetStrD f "titre" "", pyGetStrD f "TYPE_EMPLOI_ACCESSIBLES" "",
     pyGetStrD f "ACTIVITES_VISEES" "", pyGetStrD f "CAPACITES_ATTESTEES" ""]

/-- Method `preprocess_data`: normalize every record's searchable text with the
NLP pipeline (`preprocess_text`, whose spacy/NLTK core is the external
collaborator abstracted as `norm`) and collect, in parallel, the cleaned
texts and the records whose cleaned text is not blank. -/
def preprocessData (norm : String → String) : List Fiche → List String × List Fiche
  | [] => ([], [])
  | f :: rest =>
      let clean := norm (extractSearchableText f)
      let p := preprocessData norm rest
      if pyIsBlank clean then p else (clean :: p.1, f :: p.2)

/-- Call `vectorizer.fit_transform(texts)`: one matrix row per text, each row the
image of its text under the fitted vectorizer `vec` (abstracted). -/
def tfidfMatrix {V : Type} (vec : String → V) (docs : List String) : List V :=
  docs.map vec

/-- The ranking stage of `FormationSearch.search`.  The query is normalized,
projected by the already-fitted vectorizer, and `cosine_similarity` yields
one similarity per matrix row (`sims`; abstracted — the claimed properties
hold for every similarity outcome).  `similarities.argsort()[::-1][:k]`
sorts the row indices by ascending similarity, reverses, and keeps the first
`k`; results with similarity `> 0` are then returned with their metadata in
that order. -/
def searchTopK (sims : List ℚ) (meta : List Fiche) (k : Nat) :
    List (Fiche × ℚ) :=
  let order := (List.insertionSort (fun i j => sims.getD i 0 ≤ sims.getD j 0)
    (List.range sims.length)).reverse
  ((order.take k).filter (fun i => decide (0 < sims.getD i 0))).map
    (fun i => (meta.getD i [], sims.getD i 0))

/-- One entry of `json_paths` with its filesystem state: a missing path, or
a present file whose read-and-parse either raises or yields a record list. -/
inductive PathState where
  | missing
  | present (content : Except String (List Fiche))

/-- Method `FormationSearch.load_all_data`: missing paths are skipped (with a
logged warning) and processing continues; there is no `try`/`except`, so a
read/parse failure propagates; parsed record lists are concatenated in
order. -/
def loadAllData : List PathState → Except String (List Fiche)
  | [] => .ok []
  | .missing :: rest => loadAllData rest
  | .present (.error e) :: _ => .error e
  | .present (.ok l) :: rest => (loadAllData rest).map (fun acc => l ++ acc)

/-- The persisted cache triple `(vectorizer, tfidf_matrix, metadata)`. -/
structure IndexCache (V : Type) where
  vec : String → V
  matrix : List V
  metadata : List Fiche

/-- The in-memory state of a `FormationSearch` instance. -/
structure Engine (V : Type) where
  json_paths : List PathState
  data : List Fiche
  vec : String → V
  matrix : List V
  metadata : List Fiche

/-- Constructor `FormationSearch.__init__`: `self.data = []`; when the cache file exists
the persisted triple is `joblib.load`ed — with no `try`/`except`, so a
deserialization failure propagates — and `self.data` stays empty; only when
there is no cache file are the data loaded, normalized, vectorized and the
cache written.  `fit` abstracts `TfidfVectorizer(...).fit` on the corpus
texts, returning the fitted transform. -/
def initFormationSearch {V : Type} (cacheExists : Bool)
    (cacheLoad : Except String (IndexCache V)) (paths : List PathState)
    (norm : String → String) (fit : List String → String → V) :
    Except String (Engine V) :=
  if cacheExists then
    match cacheLoad with
    | .error e => .error e
    | .ok idx => .ok ⟨paths, [], idx.vec, idx.matrix, idx.metadata⟩
  else
    match loadAllData paths with
    | .error e => .error e
    | .ok data =>
        let p := preprocessData norm data
        let vec := fit p.1
        .ok ⟨paths, data, vec, tfidfMatrix vec p.1, p.2⟩

/-- The criteria loop of `filter_formations`:
`fiche.get(key) != value` for any requested key fails the record. -/
def matchesCriteria (f : Fiche) (criteria : List (String × PyVal)) : Bool :=
  criteria.all (fun kv => pyGet f kv.1 == kv.2)

/-- Method `filter_formations(**criteria)`: when `self.data` is empty the
guard calls `self.load_all_data()` — with no `try`, a raise inside the load
propagates — but on return its list is DISCARDED (`self.data` is never
reassigned); then `self.data` is filtered. -/
def filterFormations {V : Type} (eng : Engine V)
    (criteria : List (String × PyVal)) : Except String (List Fiche) :=
  if eng.data.isEmpty then
    match loadAllData eng.json_paths with
    | .error e => .error e
    | .ok _ => .ok (eng.data.filter (fun f => matchesCriteria f criteria))
  else
    .ok (eng.data.filter (fun f => matchesCriteria f criteria))

/-- The outcome of `open` + `json.load` + field access for one file of the
internal catalog: the read raises, the parse raises, the parsed value is not
a dict (`data.get` raises), or a parsed dict. -/
inductive FileOutcome where
  | unreadable (msg : String)
  | malformed (msg : String)
  | notDict (msg : String)
  | dict (d : Fiche)

/-- The record built by `load_formations_to_df` from one parsed file: the
ten fixed columns with their defaults.  A dict without a title is kept, with
`titre = ""`. -/
def mkRecord (d : Fiche) : Fiche :=
  [("titre", pyGetD d "titre" (.str "")),
   ("objectifs", pyGetD d "objectifs" (.vals [])),
   ("prerequis", pyGetD d "prerequis" (.vals [])),
   ("programme", pyGetD d "programme" (.vals [])),
   ("public", pyGetD d "public" (.vals [])),
   ("lien", pyGetD d "lien" (.str "")),
   ("durée", pyGetD d "durée" (.str "")),
   ("tarif", pyGetD d "tarif" (.str "")),
   ("modalité", pyGetD d "modalité" (.str "")),
   ("certifiant", pyGetD d "certifiant" .null)]

/-- The body of the per-file `try` block of `load_formations_to_df`. -/
def readRecord : FileOutcome → Except String Fiche
  | .unreadable m => .error m
  | .malformed m => .error m
  | .notDict m => .error m
  | .dict d => .ok (mkRecord d)

/-- Function `load_formations_to_df`: a missing directory yields an empty DataFrame;
otherwise every file is processed in order inside `try`/`except Exception`:
a failing file is logged and skipped, the remaining files continue.  The
loader itself never raises. -/
def loadFormationsToDf (dirExists : Bool) (files : List FileOutcome) :
    Except String (List Fiche) :=
  if !dirExists then .ok []
  else .ok (files.foldl (fun acc o =>
    match readRecord o with
    | .ok r => acc ++ [r]
    | .error _ => acc) [])

/-- Claim C7: in every built index the metadata list and the document-term
matrix are aligned: they have the same length, and position `i` of the
matrix is the vectorization of the normalized searchable text of the course
at `metadata[i]`.  (The index is treated as read-only after building; no
operation of the engine mutates it.) -/
theorem index_alignment {V : Type} (norm : String → String) (vec : String → V)
    (data : List Fiche) :
    (tfidfMatrix vec (preprocessData norm data).1).length
        = (preprocessData norm data).2.length
    ∧ List.Forall₂ (fun row f => row = vec (norm (extractSearchableText f)))
        (tfidfMatrix vec (preprocessData norm data).1)
        (preprocessData norm data).2 := by
  have h : List.Forall₂ (fun row f => row = vec (norm (extractSearchableText f)))
      (tfidfMatrix vec (preprocessData norm data).1) (preprocessData norm data).2 := by
    induction data with
    | nil => exact List.Forall₂.nil
    | cons f rest ih =>
        simp only [preprocessData]
        split
        · exact ih
        · exact List.Forall₂.cons rfl ih
  exact ⟨h.length_eq, h⟩

/-- Claim C1: for every similarity outcome (hence every query string) and
every `k`, `FormationSearch.search` returns at most `k` results, ordered by
descending similarity score, and no returned result has score `<= 0`. -/
theorem search_topk_sorted_positive (sims : List ℚ) (meta : List Fiche)
    (k : Nat) :
    (searchTopK sims meta k).length ≤ k
    ∧ (searchTopK sims meta k).Pairwise (fun a b => b.2 ≤ a.2)
    ∧ ∀ p ∈ searchTopK sims meta k, 0 < p.2 := by
  set order := (List.insertionSort (fun i j => sims.getD i 0 ≤ sims.getD j 0)
    (List.range sims.length)).reverse with horder
  have hsearch : searchTopK sims meta k
      = ((order.take k).filter (fun i => decide (0 < sims.getD i 0))).map
          (fun i => (meta.getD i [], sims.getD i 0)) := rfl
  have hord : order.Pairwise (fun i j => sims.getD j 0 ≤ sims.getD i 0) := by
    rw [horder, List.pairwise_reverse]
    have htot : IsTotal Nat (fun i j => sims.getD i 0 ≤ sims.getD j 0) :=
      ⟨fun a b => le_total _ _⟩
    have htrans : IsTrans Nat (fun i j => sims.getD i 0 ≤ sims.getD j 0) :=
      ⟨fun a b c hab hbc => le_trans hab hbc⟩
    exact @List.sorted_insertionSort Nat _ _ htot htrans _
  have hsub : List.Sublist
      ((order.take k).filter (fun i => decide (0 < sims.getD i 0))) order :=
    (List.filter_sublist _).trans (List.take_sublist _ _)
  refine ⟨?_, ?_, ?_⟩
  · rw [hsearch, List.length_map]
    calc ((order.take k).filter (fun i => decide (0 < sims.getD i 0))).length
        ≤ (order.take k).length := List.length_filter_le _ _
      _ ≤ k := by simp [List.length_take]
  · rw [hsearch, List.pairwise_map]
    exact hord.sublist hsub
  · rw [hsearch]
    intro p hp
    rw [List.mem_map] at hp
    obtain ⟨i, hi, rfl⟩ := hp
    have h := List.of_mem_filter hi
    simpa using h

/-- Witness for C1 at a concrete three-row index. -/
theorem search_topk_sorted_positive_witness :
    (([("titre", PyVal.str "b")], (2 : ℚ)) ∈
        searchTopK [0, 2, 1]
          [[("titre", PyVal.str "a")], [("titre", PyVal.str "b")],
           [("titre", PyVal.str "c")]] 2)
    ∧ (0 : ℚ) < 2 :=
  ⟨by decide,
    (search_topk_sorted_positive [0, 2, 1]
        [[("titre", PyVal.str "a")], [("titre", PyVal.str "b")],
         [("titre", PyVal.str "c")]] 2).2.2
      ([("titre", PyVal.str "b")], (2 : ℚ)) (by decide)⟩

/-- Claim C8 counterexample: `FormationSearch.load_all_data` has no
`try`/`except` around the per-file read and parse, so one present but
malformed source file makes the whole corpus load raise instead of being
skipped with a warning. -/
theorem corpus_load_raises_counterexample :
    loadAllData [.present (.error "Expecting value: line 1 column 1")]
      = .error "Expecting value: line 1 column 1" := rfl

/-- The fold of `load_formations_to_df` collects exactly the records of the
parseable dict files, in order, whatever the accumulator. -/
theorem loadDf_fold_eq (files : List FileOutcome) (acc : List Fiche) :
    files.foldl (fun acc o =>
        match readRecord o with
        | .ok r => acc ++ [r]
        | .error _ => acc) acc
      = acc ++ files.filterMap (fun o =>
          match o with
          | .dict d' => some (mkRecord d')
          | _ => none) := by
  induction files generalizing acc with
  | nil => simp
  | cons o rest ih =>
      cases o with
      | unreadable m => exact ih acc
      | malformed m => exact ih acc
      | notDict m => exact ih acc
      | dict d =>
          rw [List.foldl_cons, ih]
          simp [readRecord, List.filterMap_cons]

/-- Claim C8 (amended): `load_formations_to_df` never raises: every outcome
list yields `.ok`, a failing file is skipped while the remaining files are
still processed (the result is exactly the records of the parseable dict
files in order — title-less dicts included, with an empty title), and a
missing directory yields an empty corpus.  `FormationSearch.load_all_data`
skips missing paths and continues, but propagates a read/parse error. -/
theorem loader_resilience (files : List FileOutcome) (rest : List PathState) :
    loadFormationsToDf true files
      = .ok (files.filterMap (fun o =>
          match o with
          | .dict d' => some (mkRecord d')
          | _ => none))
    ∧ loadFormationsToDf false files = .ok []
    ∧ loadAllData (.missing :: rest) = loadAllData rest := by
  refine ⟨?_, rfl, rfl⟩
  rw [loadFormationsToDf]
  simp [loadDf_fold_eq]

/-- Claim C9 counterexample: when the persisted index cache exists but
cannot be deserialized, `FormationSearch.__init__` propagates the failure
(there is no `try`/`except` around `joblib.load`): cache corruption is
fatal, no rebuild happens. -/
theorem cache_corruption_fatal_counterexample :
    initFormationSearch (V := Unit) true (.error "corrupted cache") [] id
      (fun _ _ => ()) = .error "corrupted cache" := rfl

/-- Claim C9 (amended): if the cache file exists, engine construction loads
it verbatim on success and propagates a deserialization failure; only when
no cache file exists is the index rebuilt from the raw corpus — and that
rebuild never consults the cache content. -/
theorem initFormationSearch_cache_behavior {V : Type} (e : String)
    (idx : IndexCache V) (cl cl' : Except String (IndexCache V))
    (paths : List PathState) (norm : String → String)
    (fit : List String → String → V) :
    initFormationSearch true (.error e) paths norm fit = .error e
    ∧ initFormationSearch true (.ok idx) paths norm fit
        = .ok ⟨paths, [], idx.vec, idx.matrix, idx.metadata⟩
    ∧ initFormationSearch false cl paths norm fit
        = initFormationSearch false cl' paths norm fit :=
  ⟨rfl, rfl, rfl⟩

/-- An engine whose data list is empty (as after a cache-hit `__init__`)
and whose paths hold one present-but-malformed file. -/
def emptyDataBadPathEngine : Engine Unit :=
  ⟨[.present (.error "Expecting value: line 1 column 1")], [], fun _ => (),
    [], []⟩

/-- Claim C10 counterexample: an empty-data engine does NOT always return
the empty list — `self.load_all_data()` has no `try`/`except`, so with a
present-but-malformed path the guard's load raises out of
`filter_formations` instead of returning `[]`. -/
theorem filterFormations_raises_counterexample :
    emptyDataBadPathEngine.data = []
    ∧ filterFormations emptyDataBadPathEngine []
        = .error "Expecting value: line 1 column 1" :=
  ⟨rfl, rfl⟩

/-- Claim C10 (amended): when the in-memory data list is empty — as it is
whenever the engine was initialized from the persisted cache —
`filter_formations` can return no course for any criteria dictionary: the
guard calls `load_all_data()` and discards its return value, so whenever
the load returns (all paths missing or parseable) the result is the empty
list, and when the un-caught load raises, the raise propagates.  The result
is exactly the discarded load outcome with `[]` in place of its value. -/
theorem filterFormations_empty_data {V : Type} (eng : Engine V)
    (h : eng.data = []) (criteria : List (String × PyVal))
    (idx : IndexCache V) (paths : List PathState) (norm : String → String)
    (fit : List String → String → V) :
    filterFormations eng criteria
        = (loadAllData eng.json_paths).map (fun _ => [])
    ∧ (initFormationSearch true (.ok idx) paths norm fit).map (·.data) = .ok []
    ∧ (initFormationSearch true (.ok idx) paths norm fit).map
        (fun e => filterFormations e criteria)
        = .ok ((loadAllData paths).map (fun _ => [])) := by
  have hfilter : ∀ (eng' : Engine V), eng'.data = [] →
      filterFormations eng' criteria
        = (loadAllData eng'.json_paths).map (fun _ => []) := by
    intro eng' h'
    rw [filterFormations, h']
    cases hl : loadAllData eng'.json_paths <;> simp [hl, Except.map]
  refine ⟨hfilter eng h, rfl, ?_⟩
  exact congrArg Except.ok
    (hfilter ⟨paths, [], idx.vec, idx.matrix, idx.metadata⟩ rfl)

/-- A concrete engine state as produced by a cache-hit `__init__`: paths
point at a loadable corpus, but `data` is empty. -/
def cachedEngine : Engine Unit :=
  ⟨[.present (.ok [[("titre", PyVal.str "Power BI Initiation")]])], [],
    fun _ => (), [()], [[("titre", PyVal.str "Power BI Initiation")]]⟩

/-- Witness for C10: the cache-initialized engine has loadable data on disk
yet every criteria filter returns no course — the reloaded list is
discarded. -/
theorem filterFormations_empty_data_witness :
    cachedEngine.data = []
    ∧ filterFormations cachedEngine [("certifiant", PyVal.bool true)] = .ok [] :=
  ⟨rfl,
    ((filterFormations_empty_data cachedEngine rfl
        [("certifiant", PyVal.bool true)] ⟨fun _ => (), [], []⟩ [] id
        (fun _ _ => ())).1).trans (by rfl)⟩

/-!
## langchain_rag_service.py `_load_rncp_documents`
-/

/-- An RNCP registry course entry: the `ID` field (absent when missing) and
the `titre` field, the two fields the ID assignment reads. -/
structure RncpCourse where
  titre : Option String := none
  idField : Option Int := none
deriving DecidableEq

/-- An element of the parsed registry array: not a dict (skipped), or a
course dict. -/
inductive RncpEntry where
  | notDict
  | dict (c : RncpCourse)
deriving DecidableEq

/-- Python truthiness of `course.get('ID')`. -/
def pyTruthyIntOpt : Option Int → Bool
  | none => false
  | some n => !(n == 0)

/-- Expression `str(course.get('ID') or abs(hash(course['titre'])))`: the registry ID
when truthy, otherwise the fallback derived from the string hash of the
title (`hash` is the per-process Python string hash, a fixed function for
the lifetime of a process). -/
def courseId (hash : String → Int) (c : RncpCourse) : String :=
  if pyTruthyIntOpt c.idField then toString (c.idField.getD 0)
  else toString (hash (c.titre.getD "")).natAbs

/-- One document produced by `_load_rncp_documents`. -/
structure RncpDoc where
  text : String
  course_id : String
  title : String
  certifiant : Bool
deriving DecidableEq

/-- Method `_load_rncp_documents`: disabled RNCP access or a read/parse failure
(caught, logged) yields no documents; otherwise non-dict and title-less
entries are skipped and every remaining course becomes one document whose
metadata id is `rncp_<course_id>` and which is marked certifying. -/
def loadRncpDocuments (enable : Bool) (hash : String → Int)
    (mkText : RncpCourse → String) (file : Except String (List RncpEntry)) :
    List RncpDoc :=
  if !enable then []
  else
    match file with
    | .error _ => []
    | .ok entries =>
        entries.filterMap (fun e =>
          match e with
          | .notDict => none
          | .dict c =>
              match c.titre with
              | none => none
              | some t => some ⟨mkText c, "rncp_" ++ courseId hash c, t, true⟩)

/-- The id sequence of a load is a per-entry function of the entries alone
(in particular it does not depend on the ambient document-text builder). -/
theorem loadRncp_ids (hash : String → Int) (mkText : RncpCourse → String)
    (entries : List RncpEntry) :
    (loadRncpDocuments true hash mkText (.ok entries)).map (·.course_id)
      = entries.filterMap (fun e =>
          match e with
          | .notDict => none
          | .dict c => c.titre.map (fun _ => "rncp_" ++ courseId hash c)) := by
  show ((entries.filterMap _).map _) = _
  rw [List.map_filterMap]
  congr 1
  funext e
  rcases e with _ | ⟨_ | t, idf⟩ <;> rfl

/-- Claim C6: loading the same unmodified registry twice assigns the same
IDs: the id sequence is a deterministic per-entry function of the entry
data, and for an entry whose own ID is missing (or falsy) the fallback id
is a function of the title alone, so the same entry receives the same id on
every load within a process. -/
theorem rncp_reload_same_ids (hash : String → Int)
    (mkText mkText' : RncpCourse → String) (entries : List RncpEntry)
    (c c' : RncpCourse) :
    (loadRncpDocuments true hash mkText (.ok entries)).map (·.course_id)
      = (loadRncpDocuments true hash mkText' (.ok entries)).map (·.course_id)
    ∧ (c.titre = c'.titre → c.idField = c'.idField →
        courseId hash c = courseId hash c')
    ∧ (pyTruthyIntOpt c.idField = false →
        courseId hash c = toString (hash (c.titre.getD "")).natAbs) := by
  refine ⟨?_, ?_, ?_⟩
  · rw [loadRncp_ids hash mkText entries, loadRncp_ids hash mkText' entries]
  · intro h1 h2
    rw [courseId, courseId, h1, h2]
  · intro h
    rw [courseId, h]
    simp

/-- Witness for C6: two occurrences of the same ID-less entry receive the
same fallback id under a concrete hash function. -/
theorem rncp_reload_same_ids_witness :
    (RncpCourse.mk (some "Data Analyst RNCP") none).titre
        = (RncpCourse.mk (some "Data Analyst RNCP") none).titre
    ∧ courseId (fun s => (s.length : Int)) ⟨some "Data Analyst RNCP", none⟩
        = courseId (fun s => (s.length : Int)) ⟨some "Data Analyst RNCP", none⟩ :=
  ⟨rfl,
    (rncp_reload_same_ids (fun s => (s.length : Int)) (fun _ => "") (fun _ => "")
        [] ⟨some "Data Analyst RNCP", none⟩ ⟨some "Data Analyst RNCP", none⟩).2.1
      rfl rfl⟩

end Chatbot
